import Mathlib

/-!
Verification development for the banking risk-intelligence repository.

The Lean definitions below are a shallow embedding of the Python sources:

* `rag_logic/risk_scoring.py`   → `compute_risk_score`, `rating_of`
* `rag_logic/rag_highlights.py` → `generate_rag_highlights`
* `mcp_server/tools.py`         → `escalate_alert_internal`, `create_word_report`,
                                  `generate_report_internal` and the path/URL helpers
* `mcp_server/main.py`          → `mcp_tools_dispatch_generateReport`
                                  (the generateReport branch of `mcp_tools_dispatch`)

Tabular (pandas) inputs are embedded as lists of per-entity records; numeric
cells are embedded as exact rationals (`ℚ`); Python exceptions are embedded as
the `PyError` error component of `Except`.  External effects (the HTTP POST of
the escalation webhook, the docx→pdf converter, the clock, environment
variables) are passed in as explicit parameters describing their outcome.
-/

/-- Python exceptions that the embedded code can raise: a raw pandas/NumPy
`IndexError` from positional `iloc` access, a raw `ZeroDivisionError`,
a `ValueError` from the MCP dispatcher's `_require`, and FastAPI's
`HTTPException(status_code, detail)`. -/
inductive PyError where
  | indexError
  | zeroDivisionError
  | valueError (msg : String)
  | httpException (code : Nat) (detail : String)
deriving DecidableEq

deriving instance DecidableEq for Except

/-- One row of `data/companies.csv` (columns used by the code). -/
structure CompanyRow where
  company_id : String
  company_name : String
  sector : String
deriving DecidableEq

/-- One row of `data/financials.csv` (columns used by the code). -/
structure FinRow where
  company_id : String
  year : ℚ
  revenue : ℚ
  ebitda : ℚ
  net_income : ℚ
deriving DecidableEq

/-- One row of `data/exposure.csv` (columns used by the code). -/
structure ExpRow where
  company_id : String
  sanctioned_limit : ℚ
  utilized_amount : ℚ
  overdue_amount : ℚ
deriving DecidableEq

/-- One row of `data/covenants.csv` (columns used by the code). -/
structure CovRow where
  company_id : String
  dscr : ℚ
  interest_coverage : ℚ
  current_ratio : ℚ
  ebitda_min_requirement : ℚ
deriving DecidableEq

/-- One row of `data/ews.csv` (columns used by the code). -/
structure EwsRow where
  company_id : String
  event_date : String
  event : String
  severity : String
deriving DecidableEq

/-- Pandas `.iloc[-1]` on a column/frame: the last row, or a raw `IndexError`
when the frame is empty. -/
def ilocLast {α : Type} (l : List α) : Except PyError α :=
  match l.getLast? with
  | some a => Except.ok a
  | none => Except.error PyError.indexError

/-- Pandas `.iloc[0]` on a column/frame: the first row, or a raw `IndexError`
when the frame is empty. -/
def ilocFirst {α : Type} (l : List α) : Except PyError α :=
  match l.head? with
  | some a => Except.ok a
  | none => Except.error PyError.indexError

/-- Python `a / b` on numeric cells: exact division, with a raw division
error when the divisor is zero (no validation happens in the source). -/
def pydiv (a b : ℚ) : Except PyError ℚ :=
  if b = 0 then Except.error PyError.zeroDivisionError else Except.ok (a / b)

/-- `ews_severity_mapping.get(ev, 0)` with
`ews_severity_mapping = {"Low":0.3, "Medium":0.6, "High":1.0}`. -/
def severityWeightGet (s : String) : ℚ :=
  if s = "Low" then 0.3 else if s = "Medium" then 0.6 else if s = "High" then 1.0 else 0

/-- Python `max(l, default=0)`: the maximum of the list, or `0` for `[]`. -/
def pymaxDefault0 (l : List ℚ) : ℚ :=
  match l with
  | [] => 0
  | x :: xs => xs.foldl max x

/-- Lines 13–18 of `risk_scoring.py`: the rating thresholds applied to the
computed score. -/
def rating_of (risk_score : ℚ) : String :=
  if risk_score < 0.3 then "Low" else if risk_score < 0.6 then "Medium" else "High"

/-- `rag_logic/risk_scoring.py`, `compute_risk_score`: argument order
(financial, exposure, covenants, ews_events) as in the source; returns the
`(risk_score, rating)` pair, or the raw error the Python code would raise. -/
def compute_risk_score (financial : List FinRow) (exposure : List ExpRow)
    (covenants : List CovRow) (ews_events : List EwsRow) :
    Except PyError (ℚ × String) := do
  let finLast ← ilocLast financial
  let cov0 ← ilocFirst covenants
  let ebitda_ratio ← pydiv finLast.ebitda cov0.ebitda_min_requirement
  let exp0 ← ilocFirst exposure
  let utilization_ratio ← pydiv exp0.utilized_amount exp0.sanctioned_limit
  let covenant_compliance : ℚ :=
    ((if cov0.dscr ≥ 1 then 1 else 0) + (if cov0.interest_coverage ≥ 1.5 then 1 else 0) +
      (if cov0.current_ratio ≥ 1 then 1 else 0)) / 3
  let ews_severity := pymaxDefault0 (ews_events.map (fun ev => severityWeightGet ev.severity))
  let risk_score := 0.4 * (1 - ebitda_ratio) + 0.3 * utilization_ratio +
    0.2 * (1 - covenant_compliance) + 0.1 * ews_severity
  return (risk_score, rating_of risk_score)

/-- `rag_logic/rag_highlights.py`, `generate_rag_highlights`: argument order
(financials, covenants, exposure, ews) as in the source.  The three rules
append in the fixed source order; the per-event string carries no trailing
period, exactly as the f-string on line 13 of the source. -/
def generate_rag_highlights (financials : List FinRow) (covenants : List CovRow)
    (exposure : List ExpRow) (ews : List EwsRow) : Except PyError (List String) := do
  let latest_fin ← ilocLast financials
  let cov ← ilocFirst covenants
  let exp ← ilocFirst exposure
  let rule1 := if latest_fin.ebitda < cov.ebitda_min_requirement then
    ["EBITDA is below covenant minimum requirement."] else []
  let uratio ← pydiv exp.utilized_amount exp.sanctioned_limit
  let rule2 := if uratio > 0.8 then
    ["Loan utilization exceeds 80% of sanctioned limit."] else []
  let high_ews := ews.filter (fun r => r.severity == "High")
  return rule1 ++ rule2 ++
    high_ews.map (fun row => "High severity alert: " ++ row.event ++ " on " ++ row.event_date)

/-- Spec §4.1 step 4 weight table, written from the spec's words (for the
refinement statement of the formula claim). -/
def spec_severity_weight (severity : String) : ℚ :=
  if severity = "Low" then 0.3 else if severity = "Medium" then 0.6
  else if severity = "High" then 1.0 else 0

/-- Spec §4.1 step 4, written from the spec's words: the maximum severity
weight over all early-warning events, or `0` if there are none. -/
def spec_ews_severity (severities : List String) : ℚ :=
  match severities.map spec_severity_weight with
  | [] => 0
  | w :: ws => ws.foldl max w

/-- Spec §4.1 step 3, written from the spec's words: the count of satisfied
covenant checks (DSCR ≥ 1, interest coverage ≥ 1.5, current ratio ≥ 1)
divided by 3. -/
def spec_covenant_compliance (cov : CovRow) : ℚ :=
  ((if cov.dscr ≥ 1 then 1 else 0) + (if cov.interest_coverage ≥ 1.5 then 1 else 0) +
    (if cov.current_ratio ≥ 1 then 1 else 0)) / 3

/-- Python `s.startswith(p)` via the character lists of the two strings. -/
def pyStartsWith (s p : String) : Bool :=
  p.data.isPrefixOf s.data

/-- Worker for `pyReplace`: left-to-right non-overlapping replacement of a
non-empty pattern, with a fuel argument bounding the recursion by the input
length (an empty pattern is left untouched; both call sites in the embedded
code use non-empty patterns). -/
def replaceAll (pat rep : List Char) : Nat → List Char → List Char
  | _, [] => []
  | 0, l => l
  | fuel + 1, c :: rest =>
    if pat.isPrefixOf (c :: rest) && !pat.isEmpty then
      rep ++ replaceAll pat rep fuel (List.drop (pat.length - 1) rest)
    else
      c :: replaceAll pat rep fuel rest

/-- Python `s.replace(pat, rep)`. -/
def pyReplace (s pat rep : String) : String :=
  String.mk (replaceAll pat.data rep.data s.data.length s.data)

/-- Python `s.lstrip("/")`. -/
def lstripSlash (s : String) : String :=
  String.mk (s.data.dropWhile (fun c => c = '/'))

/-- `os.path.join` for the relative, separator-free parts used by the code,
followed by the `replace(os.sep, "/")` that `_to_web_path` performs (with "/"
as separator the replacement is the identity). -/
def joinPath : List String → String
  | [] => ""
  | [p] => p
  | p :: rest => p ++ "/" ++ joinPath rest

/-- `mcp_server/tools.py`, `_to_web_path`: join the parts and strip leading
slashes. -/
def to_web_path (parts : List String) : String :=
  lstripSlash (joinPath parts)

/-- `mcp_server/tools.py`, `_public_base_url`: `PUBLIC_BASE_URL` when set,
else `https://` + `WEBSITE_HOSTNAME` when set, else the empty string.  The
two module constants (already `.strip()`ed/`rstrip("/")`ed at load) are
passed in as parameters. -/
def public_base_url (pub website : String) : String :=
  if pub ≠ "" then pub
  else if website ≠ "" then "https://" ++ website
  else ""

/-- `mcp_server/tools.py`, `_make_public_url`: `None` for an absent/empty
relative path or an unconfigured base, else base `/` path with leading
slashes stripped from the path. -/
def make_public_url (pub website : String) (rel : Option String) : Option String :=
  match rel with
  | none => none
  | some r =>
    if r = "" then none
    else
      let base := public_base_url pub website
      if base = "" then none else some (base ++ "/" ++ lstripSlash r)

/-- Abstract rendering of a numeric cell interpolated into an f-string
(Python `str()` of the value); no claim depends on the digits produced. -/
def pyStr (q : ℚ) : String := toString q

/-- Round to the nearest integer, ties to even — the rounding Python's
fixed-point `format` applies. -/
def roundHalfEven (q : ℚ) : ℤ :=
  let f := ⌊q⌋
  let frac := q - f
  if frac < 1 / 2 then f
  else if 1 / 2 < frac then f + 1
  else if f % 2 = 0 then f else f + 1

/-- Left-pad a digit string with zeros to the given width. -/
def padZeros (s : String) (w : Nat) : String :=
  String.mk (List.replicate (w - s.length) '0') ++ s

/-- Python `f"{q:.{digits}f}"` on an exact rational value. -/
def formatFixed (digits : Nat) (q : ℚ) : String :=
  let scaled := roundHalfEven (q * (10 : ℚ) ^ digits)
  let sign := if scaled < 0 then "-" else ""
  let n := scaled.natAbs
  if digits = 0 then sign ++ toString n
  else sign ++ toString (n / 10 ^ digits) ++ "." ++ padZeros (toString (n % 10 ^ digits)) digits

/-- One `python-docx` element added to the report document. -/
inductive DocItem where
  | heading (level : Nat) (text : String)
  | paragraph (text : String)
deriving DecidableEq

/-- Stable insert for the ascending-by-year sort of the financials frame. -/
def insertByYear (r : FinRow) : List FinRow → List FinRow
  | [] => [r]
  | x :: xs => if r.year ≤ x.year then r :: x :: xs else x :: insertByYear r xs

/-- `financials.sort_values("year")` (ascending sort by the `year` column;
the source applies it whenever the column is present, which it is in the
embedded row type). -/
def sort_values_year : List FinRow → List FinRow
  | [] => []
  | r :: rest => insertByYear r (sort_values_year rest)

/-- The Early Warning Signals paragraphs: one per event row, in input order
(`for idx, row in ews.iterrows()`). -/
def ews_section (ews : List EwsRow) : List DocItem :=
  ews.map (fun row => DocItem.paragraph (row.event_date ++ ": " ++ row.event))

/-- The Key Highlights bullet paragraphs. -/
def highlights_section (hl : List String) : List DocItem :=
  hl.map (fun h => DocItem.paragraph ("- " ++ h))

/-- The fixed document template of `create_word_report`, in the exact order
the source adds headings and paragraphs. -/
def report_doc (company_name : String) (latest_fin : FinRow) (exp : ExpRow) (cov : CovRow)
    (ews : List EwsRow) (risk_score : ℚ) (risk_rating : String) (rag_highlights : List String) :
    List DocItem :=
  [DocItem.heading 0 (company_name ++ " - Quaterly Risk Review"),
   DocItem.heading 1 "Financial Summary:",
   DocItem.paragraph ("Revenue: " ++ pyStr latest_fin.revenue),
   DocItem.paragraph ("EBITDA: " ++ pyStr latest_fin.ebitda),
   DocItem.paragraph ("Net Income: " ++ pyStr latest_fin.net_income),
   DocItem.heading 1 "Loan Exposure:",
   DocItem.paragraph ("Sanctioned Limit: " ++ pyStr exp.sanctioned_limit),
   DocItem.paragraph ("Utilized Amount: " ++ pyStr exp.utilized_amount),
   DocItem.paragraph ("Overdue Amount: " ++ pyStr exp.overdue_amount),
   DocItem.heading 1 "Covenant Compliance:",
   DocItem.paragraph ("DSCR: " ++ pyStr cov.dscr),
   DocItem.paragraph ("Interest Coverage: " ++ pyStr cov.interest_coverage),
   DocItem.paragraph ("Current Ratio: " ++ pyStr cov.current_ratio),
   DocItem.heading 1 "Early Warning Signals:"] ++
  ews_section ews ++
  [DocItem.heading 1 "Risk Summary:",
   DocItem.paragraph ("Risk Score: " ++ formatFixed 2 risk_score),
   DocItem.paragraph ("Risk Rating: " ++ risk_rating),
   DocItem.heading 1 "Key Highlights:"] ++
  highlights_section rag_highlights

/-- The relative web path of the Word artifact:
`reports/generated_reports/<name with spaces replaced>_Risk_Report_<date>.docx`. -/
def report_word_rel (company_name today : String) : String :=
  to_web_path ["reports", "generated_reports",
    pyReplace company_name " " "_" ++ "_Risk_Report_" ++ today ++ ".docx"]

/-- The metadata record `create_word_report` returns (its Python dict). -/
structure ReportPaths where
  word : String
  pdf : Option String
  word_url : Option String
  pdf_url : Option String
  rag_highlights : List String
deriving DecidableEq

/-- `mcp_server/tools.py`, `create_word_report`.  The docx2pdf conversion is
an external effect whose success is the `pdf_convert_ok` parameter (the
source wraps it in try/except and degrades to no PDF on failure); `today` is
`str(datetime.date.today())`; `pub`/`website` are the URL-building module
constants.  Returns the rendered document together with the metadata dict. -/
def create_word_report (company_name : String) (financials : List FinRow)
    (exposure : List ExpRow) (covenants : List CovRow) (ews : List EwsRow)
    (risk_score : ℚ) (risk_rating : String) (rag_highlights : List String)
    (pub website today : String) (pdf_convert_ok : Bool) :
    Except PyError (List DocItem × ReportPaths) :=
  if financials.isEmpty || exposure.isEmpty || covenants.isEmpty then
    Except.error (PyError.httpException 400 "Insufficient data to generate report")
  else do
    let latest_fin ← ilocLast (sort_values_year financials)
    let exp ← ilocFirst exposure
    let cov ← ilocFirst covenants
    let doc := report_doc company_name latest_fin exp cov ews risk_score risk_rating rag_highlights
    let rel_web_word_path := report_word_rel company_name today
    let rel_web_pdf_path : Option String :=
      if pdf_convert_ok then some (pyReplace rel_web_word_path ".docx" ".pdf") else none
    let word_url := make_public_url pub website (some rel_web_word_path)
    let pdf_url := if pdf_convert_ok then make_public_url pub website rel_web_pdf_path else none
    return (doc, ⟨rel_web_word_path, rel_web_pdf_path, word_url, pdf_url, rag_highlights⟩)

/-- Outcome of the one `requests.post` the escalation notifier performs:
an HTTP response (any status) or a transport-level `RequestException`. -/
inductive HttpOutcome where
  | resp (status_code : Nat) (text : String)
  | transportError (msg : String)
deriving DecidableEq

/-- The dict `escalate_alert_internal` returns on the response path. -/
structure EscalateResult where
  status : String
  code : String
  message : String
deriving DecidableEq

/-- The data of the Adaptive Card payload `escalate_alert_internal` builds
(title facts and the optional report link; delivery itself is external). -/
structure AdaptiveCardFacts where
  company_id : String
  agent : String
  risk_score_text : String
  risk_rating_text : String
  timestamp : String
  action_url : Option String
deriving DecidableEq

/-- The card construction in `escalate_alert_internal`: score formatted to 4
decimals or empty, `risk_rating or ""`, UTC timestamp with a `Z` suffix, and
the report link from `extra` (Python: `extra.get("report_url") if extra else
the fixed fallback URL`, so a truthy `extra` without the key yields no URL). -/
def escalate_card (company_id x_agent_id : String) (risk_score : Option ℚ)
    (risk_rating : Option String) (extra : Option (List (String × String)))
    (now_utc : String) : AdaptiveCardFacts :=
  { company_id := company_id
    agent := x_agent_id
    risk_score_text := match risk_score with | none => "" | some rs => formatFixed 4 rs
    risk_rating_text := match risk_rating with | none => "" | some r => r
    timestamp := now_utc ++ "Z"
    action_url := match extra with
      | some (kv :: rest) => (kv :: rest).lookup "report_url"
      | _ => some "https://contoso.example/reports" }

/-- `mcp_server/tools.py`, `escalate_alert_internal`.  `webhook_url` is the
`TEAMS_WORKFLOW_WEBHOOK_URL` module constant; `outcome` is what the single
`requests.post` call produced.  A 2xx response yields status
`"alert_escalated"`, any other response yields status `"failed"` with the
code and the body truncated to 300 characters, and a transport failure
escapes as `HTTPException(502, ...)`. -/
def escalate_alert_internal (company_id x_agent_id : String) (risk_score : Option ℚ)
    (risk_rating : Option String) (extra : Option (List (String × String)))
    (webhook_url now_utc : String) (outcome : HttpOutcome) :
    Except PyError EscalateResult :=
  if x_agent_id = "" ∨ pyStartsWith x_agent_id "agent-" = false then
    Except.error (PyError.httpException 401 "Invalid or missing Agent ID")
  else if webhook_url = "" then
    Except.error (PyError.httpException 500 "Teams webhook URL not configured")
  else
    let _card := escalate_card company_id x_agent_id risk_score risk_rating extra now_utc
    match outcome with
    | HttpOutcome.resp code text =>
      if 200 ≤ code ∧ code < 300 then
        Except.ok ⟨"alert_escalated", toString code, ""⟩
      else
        Except.ok ⟨"failed", toString code, text.take 300⟩
    | HttpOutcome.transportError e =>
      Except.error (PyError.httpException 502 ("Webhook post failed: " ++ e))

/-- A JSON value of the dict `generate_report_internal` returns. -/
inductive PyVal where
  | vstr (s : String)
  | vnum (q : ℚ)
  | vlist (l : List String)
  | vnone
deriving DecidableEq

/-- An `Option String` cell rendered into the returned dict (`None` ↦ null). -/
def optStr : Option String → PyVal
  | some s => PyVal.vstr s
  | none => PyVal.vnone

/-- The dict returned by `generate_report_internal`, with its keys in source
order.  The artifact-location keys are named `word_report` / `pdf_report`
(with `_url` variants); there is no `word_path` / `pdf_path` key. -/
def gri_dict (company_name : String) (risk_score : ℚ) (risk_rating : String)
    (rep : ReportPaths) : List (String × PyVal) :=
  [("status", PyVal.vstr "report_generated"),
   ("company", PyVal.vstr company_name),
   ("risk_score", PyVal.vnum risk_score),
   ("risk_rating", PyVal.vstr risk_rating),
   ("word_report", PyVal.vstr rep.word),
   ("word_report_url", optStr rep.word_url),
   ("pdf_report", optStr rep.pdf),
   ("pdf_report_url", optStr rep.pdf_url),
   ("rag_highlights", PyVal.vlist rep.rag_highlights)]

/-- Python `dict.get(key)` on the returned dict: the value, or `None` when
the key is absent. -/
def pyget (d : List (String × PyVal)) (k : String) : Option PyVal :=
  d.lookup k

/-- `mcp_server/tools.py`, `generate_report_internal`: agent check, company
lookup, per-company subset extraction, scoring, highlights, report assembly,
and the response dict. -/
def generate_report_internal (company_id x_agent_id : String)
    (companies : List CompanyRow) (financials : List FinRow) (exposure : List ExpRow)
    (covenants : List CovRow) (ews : List EwsRow)
    (pub website today : String) (pdf_convert_ok : Bool) :
    Except PyError (List (String × PyVal)) :=
  if x_agent_id = "" ∨ pyStartsWith x_agent_id "agent-" = false then
    Except.error (PyError.httpException 401 "Invalid or missing Agent ID")
  else
    match companies.filter (fun c => c.company_id == company_id) with
    | [] => Except.error (PyError.httpException 404 "Company not found")
    | c0 :: _ => do
      let company_name := c0.company_name
      let fin := financials.filter (fun r => r.company_id == company_id)
      let exp := exposure.filter (fun r => r.company_id == company_id)
      let cov := covenants.filter (fun r => r.company_id == company_id)
      let ews_events := ews.filter (fun r => r.company_id == company_id)
      let scored ← compute_risk_score fin exp cov ews_events
      let rag_highlights ← generate_rag_highlights fin cov exp ews_events
      let report ← create_word_report company_name fin exp cov ews_events
        scored.1 scored.2 rag_highlights pub website today pdf_convert_ok
      return gri_dict company_name scored.1 scored.2 report.2

/-- `_require(args, key)` of `mcp_server/main.py`: a missing or falsy (empty)
argument raises `ValueError`. -/
def pyrequire (v : Option String) (key : String) : Except PyError String :=
  match v with
  | none => Except.error (PyError.valueError ("Missing required argument \x27" ++ key ++ "\x27"))
  | some s =>
    if s = "" then
      Except.error (PyError.valueError ("Missing required argument \x27" ++ key ++ "\x27"))
    else Except.ok s

/-- The JSON object the `generateReport` branch of `mcp_tools_dispatch`
returns. -/
structure DispatchGenerateReport where
  company_id : String
  word_path : Option PyVal
  pdf_path : Option PyVal
  created_at : String
  fmt : String
deriving DecidableEq

/-- `mcp_server/main.py`, the `generateReport` branch of
`mcp_tools_dispatch`: requires `company_id`, defaults `format` to
`"pdf"`, calls `generate_report_internal` on the global dataframes, and
projects `resp.get("word_path")` / `resp.get("pdf_path")` out of the
response dict (`now_utc` is `datetime.utcnow().isoformat()`). -/
def mcp_tools_dispatch_generateReport (args_company_id args_format : Option String)
    (agent_id : String) (companies : List CompanyRow) (financials : List FinRow)
    (exposure : List ExpRow) (covenants : List CovRow) (ews : List EwsRow)
    (pub website today now_utc : String) (pdf_convert_ok : Bool) :
    Except PyError DispatchGenerateReport := do
  let company_id ← pyrequire args_company_id "company_id"
  let fmt := args_format.getD "pdf"
  let resp ← generate_report_internal company_id agent_id companies financials exposure
    covenants ews pub website today pdf_convert_ok
  return { company_id := company_id
           word_path := pyget resp "word_path"
           pdf_path := pyget resp "pdf_path"
           created_at := now_utc ++ "Z"
           fmt := fmt }

/-- The `word_path` field of a successful dispatch result (`none` on the
error path, where no field is produced at all). -/
def dispatchWordPath (r : Except PyError DispatchGenerateReport) : Option PyVal :=
  match r with
  | Except.ok d => d.word_path
  | Except.error _ => none

/-- The `pdf_path` field of a successful dispatch result. -/
def dispatchPdfPath (r : Except PyError DispatchGenerateReport) : Option PyVal :=
  match r with
  | Except.ok d => d.pdf_path
  | Except.error _ => none

/-- The concrete end-to-end scenario of spec §8: one financial row for
company C100 with ebitda 80. -/
def c1fin : List FinRow := [⟨"C100", 2024, 1000, 80, 50⟩]

/-- Spec §8 scenario: one exposure row, sanctioned 100, utilized 90. -/
def c1exp : List ExpRow := [⟨"C100", 100, 90, 0⟩]

/-- Spec §8 scenario: one covenant row, dscr 1.2, interest coverage 2.0,
current ratio 1.1, ebitda minimum requirement 100. -/
def c1cov : List CovRow := [⟨"C100", 1.2, 2.0, 1.1, 100⟩]

/-- Spec §8 scenario: one High-severity event "Missed payment" dated
2024-01-01. -/
def c1ews : List EwsRow := [⟨"C100", "2024-01-01", "Missed payment", "High"⟩]

/-- Input whose ebitda ratio exceeds one: ebitda 500 against requirement
100, nothing utilized, all covenants met. -/
def c6fin : List FinRow := [⟨"C200", 2024, 2000, 500, 300⟩]

/-- Exposure row for the unclamped-score scenario: nothing utilized. -/
def c6exp : List ExpRow := [⟨"C200", 100, 0, 0⟩]

/-- Covenant row for the unclamped-score scenario: all three checks pass. -/
def c6cov : List CovRow := [⟨"C200", 2, 2, 2, 100⟩]

/-- All-rules scenario for the highlight-ordering claim: ebitda 50 below the
requirement 100. -/
def c5fin : List FinRow := [⟨"C300", 2024, 700, 50, 20⟩]

/-- All-rules scenario: utilization 95 of 100 exceeds 80%. -/
def c5exp : List ExpRow := [⟨"C300", 100, 95, 1⟩]

/-- All-rules scenario: first covenant row with requirement 100. -/
def c5cov : List CovRow := [⟨"C300", 0.9, 1.0, 0.8, 100⟩]

/-- All-rules scenario: two High-severity events in input order, with a
Medium one between them. -/
def c5ews : List EwsRow :=
  [⟨"C300", "2024-02-01", "Payment delay", "High"⟩,
   ⟨"C300", "2024-02-10", "Auditor change", "Medium"⟩,
   ⟨"C300", "2024-03-05", "Covenant breach", "High"⟩]

/-- `iloc[-1]` on a nonempty frame yields its last row. -/
theorem ilocLast_of_ne {α : Type} (l : List α) (h : l ≠ []) :
    ilocLast l = Except.ok (l.getLast h) := by
  unfold ilocLast
  rw [List.getLast?_eq_getLast_of_ne_nil h]

/-- `iloc[0]` on a nonempty frame yields its first row. -/
theorem ilocFirst_of_ne {α : Type} (l : List α) (h : l ≠ []) :
    ilocFirst l = Except.ok (l.head h) := by
  cases l with
  | nil => exact absurd rfl h
  | cons a t => rfl

/-- Division by a nonzero cell succeeds with the exact quotient. -/
theorem pydiv_of_ne (a b : ℚ) (hb : b ≠ 0) : pydiv a b = Except.ok (a / b) := by
  unfold pydiv
  rw [if_neg hb]

/-- Inserting a row never empties the list. -/
theorem insertByYear_ne_nil (r : FinRow) (l : List FinRow) : insertByYear r l ≠ [] := by
  cases l with
  | nil => simp [insertByYear]
  | cons x xs =>
    unfold insertByYear
    split <;> simp

/-- Sorting by year preserves nonemptiness. -/
theorem sort_values_year_ne_nil (l : List FinRow) (h : l ≠ []) : sort_values_year l ≠ [] := by
  cases l with
  | nil => exact absurd rfl h
  | cons r rest => exact insertByYear_ne_nil r (sort_values_year rest)

/-- Evaluation of the risk scorer on the spec §8 scenario. -/
theorem eval_compute_c1 :
    compute_risk_score c1fin c1exp c1cov c1ews = Except.ok (0.45, "Medium") := by
  simp only [compute_risk_score, c1fin, c1exp, c1cov, c1ews, ilocLast, ilocFirst, pydiv,
    pymaxDefault0, severityWeightGet, rating_of, List.getLast?, List.head?, List.map,
    List.foldl, bind, Except.bind, pure, Except.pure]
  simp only [String.reduceEq, reduceIte]
  norm_num

/-- Evaluation of the highlight extractor on the spec §8 scenario: all three
rules fire, and the event string has no trailing period. -/
theorem eval_highlights_c1 :
    generate_rag_highlights c1fin c1cov c1exp c1ews = Except.ok
      ["EBITDA is below covenant minimum requirement.",
       "Loan utilization exceeds 80% of sanctioned limit.",
       "High severity alert: Missed payment on 2024-01-01"] := by
  simp only [generate_rag_highlights, c1fin, c1cov, c1exp, c1ews, ilocLast, ilocFirst, pydiv,
    List.getLast?, List.head?, List.filter_cons, List.filter_nil, List.map,
    bind, Except.bind, pure, Except.pure]
  norm_num
  rfl

/-- Every run of the risk scorer either raises or returns a pair whose
rating component is `rating_of` of its score component. -/
theorem compute_risk_score_shape (fin : List FinRow) (exp : List ExpRow) (cov : List CovRow)
    (ews : List EwsRow) :
    (∃ e, compute_risk_score fin exp cov ews = Except.error e) ∨
      (∃ s, compute_risk_score fin exp cov ews = Except.ok (s, rating_of s)) := by
  unfold compute_risk_score
  cases ilocLast fin with
  | error e => exact Or.inl ⟨e, rfl⟩
  | ok finLast =>
    simp only [bind, Except.bind, pure, Except.pure]
    cases ilocFirst cov with
    | error e => exact Or.inl ⟨e, rfl⟩
    | ok cov0 =>
      simp only [bind, Except.bind, pure, Except.pure]
      cases pydiv finLast.ebitda cov0.ebitda_min_requirement with
      | error e => exact Or.inl ⟨e, rfl⟩
      | ok er =>
        simp only [bind, Except.bind, pure, Except.pure]
        cases ilocFirst exp with
        | error e => exact Or.inl ⟨e, rfl⟩
        | ok exp0 =>
          simp only [bind, Except.bind, pure, Except.pure]
          cases pydiv exp0.utilized_amount exp0.sanctioned_limit with
          | error e => exact Or.inl ⟨e, rfl⟩
          | ok ur => exact Or.inr ⟨_, rfl⟩

/-- The threshold table of `rating_of`, as three equivalences. -/
theorem rating_of_spec (s : ℚ) :
    (rating_of s = "Low" ↔ s < 0.3) ∧ (rating_of s = "Medium" ↔ 0.3 ≤ s ∧ s < 0.6) ∧
      (rating_of s = "High" ↔ 0.6 ≤ s) := by
  unfold rating_of
  split_ifs with h1 h2
  · refine ⟨⟨fun _ => h1, fun _ => rfl⟩, ⟨fun hh => absurd hh (by decide), fun hh => ?_⟩,
      ⟨fun hh => absurd hh (by decide), fun hh => ?_⟩⟩
    · exact absurd h1 (not_lt.mpr hh.1)
    · exact absurd h1 (not_lt.mpr (by linarith))
  · refine ⟨⟨fun hh => absurd hh (by decide), fun hh => absurd hh h1⟩,
      ⟨fun _ => ⟨not_lt.mp h1, h2⟩, fun _ => rfl⟩,
      ⟨fun hh => absurd hh (by decide), fun hh => absurd h2 (not_lt.mpr hh)⟩⟩
  · refine ⟨⟨fun hh => absurd hh (by decide), fun hh => absurd hh h1⟩,
      ⟨fun hh => absurd hh (by decide), fun hh => absurd hh.2 h2⟩,
      ⟨fun _ => not_lt.mp h2, fun _ => rfl⟩⟩

/-- On nonempty financials/exposure/covenants, `create_word_report` succeeds
and returns exactly the template document and the path record determined by
the company name, the date and the PDF-conversion outcome. -/
theorem create_word_report_of_ne (name : String) (fin : List FinRow) (exp : List ExpRow)
    (cov : List CovRow) (ews : List EwsRow) (rs : ℚ) (rr : String) (hl : List String)
    (pub web today : String) (pdfOk : Bool) (hf : fin ≠ []) (he : exp ≠ []) (hc : cov ≠ []) :
    create_word_report name fin exp cov ews rs rr hl pub web today pdfOk = Except.ok
      (report_doc name ((sort_values_year fin).getLast (sort_values_year_ne_nil fin hf))
        (exp.head he) (cov.head hc) ews rs rr hl,
       { word := report_word_rel name today
         pdf := if pdfOk then some (pyReplace (report_word_rel name today) ".docx" ".pdf")
           else none
         word_url := make_public_url pub web (some (report_word_rel name today))
         pdf_url := if pdfOk then
             make_public_url pub web (some (pyReplace (report_word_rel name today) ".docx" ".pdf"))
           else none
         rag_highlights := hl }) := by
  have hg : (fin.isEmpty || exp.isEmpty || cov.isEmpty) = false := by
    simp only [Bool.or_eq_false_iff, List.isEmpty_eq_false]
    exact ⟨⟨hf, he⟩, hc⟩
  unfold create_word_report
  rw [hg]
  simp only [Bool.false_eq_true, if_false]
  rw [ilocLast_of_ne _ (sort_values_year_ne_nil fin hf), ilocFirst_of_ne _ he,
    ilocFirst_of_ne _ hc]
  simp only [bind, Except.bind, pure, Except.pure]
  cases pdfOk <;> rfl

/-- Every run of `generate_report_internal` either raises or returns a dict
of the fixed `gri_dict` shape. -/
theorem generate_report_internal_shape (cid agent : String) (companies : List CompanyRow)
    (fins : List FinRow) (exps : List ExpRow) (covs : List CovRow) (ewss : List EwsRow)
    (pub web today : String) (pdfOk : Bool) :
    (∃ e, generate_report_internal cid agent companies fins exps covs ewss pub web today pdfOk =
        Except.error e) ∨
      (∃ cn rs rr rep, generate_report_internal cid agent companies fins exps covs ewss
        pub web today pdfOk = Except.ok (gri_dict cn rs rr rep)) := by
  unfold generate_report_internal
  split
  · exact Or.inl ⟨_, rfl⟩
  · cases companies.filter (fun c => c.company_id == cid) with
    | nil => exact Or.inl ⟨_, rfl⟩
    | cons c0 rest =>
      simp only [bind, Except.bind, pure, Except.pure]
      cases compute_risk_score (fins.filter (fun r => r.company_id == cid))
          (exps.filter (fun r => r.company_id == cid))
          (covs.filter (fun r => r.company_id == cid))
          (ewss.filter (fun r => r.company_id == cid)) with
      | error e => exact Or.inl ⟨e, rfl⟩
      | ok scored =>
        simp only [bind, Except.bind, pure, Except.pure]
        cases generate_rag_highlights (fins.filter (fun r => r.company_id == cid))
            (covs.filter (fun r => r.company_id == cid))
            (exps.filter (fun r => r.company_id == cid))
            (ewss.filter (fun r => r.company_id == cid)) with
        | error e => exact Or.inl ⟨e, rfl⟩
        | ok hl =>
          simp only [bind, Except.bind, pure, Except.pure]
          cases create_word_report c0.company_name
              (fins.filter (fun r => r.company_id == cid))
              (exps.filter (fun r => r.company_id == cid))
              (covs.filter (fun r => r.company_id == cid))
              (ewss.filter (fun r => r.company_id == cid))
              scored.1 scored.2 hl pub web today pdfOk with
          | error e => exact Or.inl ⟨e, rfl⟩
          | ok report => exact Or.inr ⟨_, _, _, _, rfl⟩

/-- The dict `generate_report_internal` returns has no `word_path` key. -/
theorem pyget_gri_dict_word_path (cn : String) (rs : ℚ) (rr : String) (rep : ReportPaths) :
    pyget (gri_dict cn rs rr rep) "word_path" = none := by
  simp [pyget, gri_dict, List.lookup]

/-- The dict `generate_report_internal` returns has no `pdf_path` key. -/
theorem pyget_gri_dict_pdf_path (cn : String) (rs : ℚ) (rr : String) (rep : ReportPaths) :
    pyget (gri_dict cn rs rr rep) "pdf_path" = none := by
  simp [pyget, gri_dict, List.lookup]

/-- The artifact location is present in the same dict under `word_report`. -/
theorem pyget_gri_dict_word_report (cn : String) (rs : ℚ) (rr : String) (rep : ReportPaths) :
    pyget (gri_dict cn rs rr rep) "word_report" = some (PyVal.vstr rep.word) := by
  simp [pyget, gri_dict, List.lookup]

/-- Evaluation of the risk scorer on the unclamped scenario: ebitda ratio 5
drives the score to -1.6. -/
theorem eval_compute_c6 :
    compute_risk_score c6fin c6exp c6cov ([] : List EwsRow) = Except.ok (-1.6, "Low") := by
  simp only [compute_risk_score, c6fin, c6exp, c6cov, ilocLast, ilocFirst, pydiv,
    pymaxDefault0, severityWeightGet, rating_of, List.getLast?, List.head?, List.map,
    List.foldl, bind, Except.bind, pure, Except.pure]
  norm_num

/-- C1: on the spec §8 scenario (one financial row with ebitda 80, one
covenant row with requirement 100 / dscr 1.2 / interest coverage 2.0 /
current ratio 1.1, one exposure row 90 of 100, one High event
"Missed payment" on 2024-01-01) `compute_risk_score` returns exactly
(0.45, "Medium") and `generate_rag_highlights` returns exactly the three
strings of the three rules, in rule order — with the High-severity string
carrying no trailing period. -/
theorem claim1_scenario :
    compute_risk_score c1fin c1exp c1cov c1ews = Except.ok (0.45, "Medium") ∧
      generate_rag_highlights c1fin c1cov c1exp c1ews = Except.ok
        ["EBITDA is below covenant minimum requirement.",
         "Loan utilization exceeds 80% of sanctioned limit.",
         "High severity alert: Missed payment on 2024-01-01"] :=
  ⟨eval_compute_c1, eval_highlights_c1⟩

/-- C1, counterexample to the claim as stated: on the very same scenario the
highlight list is not the claimed one, because the third string of the claim
ends in a period while the code's f-string produces none. -/
theorem claim1_period_counterexample :
    generate_rag_highlights c1fin c1cov c1exp c1ews ≠ Except.ok
      ["EBITDA is below covenant minimum requirement.",
       "Loan utilization exceeds 80% of sanctioned limit.",
       "High severity alert: Missed payment on 2024-01-01."] := by
  rw [eval_highlights_c1]
  intro h
  exact absurd (Except.ok.inj h) (by decide)

/-- C4: the scorer and the highlight extractor perform no input validation —
on an empty covenants, financials or exposure subset they surface the raw
positional-indexing error, and on a zero covenant minimum requirement the
raw division error, never an InsufficientData/HTTP 400 error. -/
theorem claim4_raw_faults :
    compute_risk_score c1fin c1exp ([] : List CovRow) c1ews = Except.error PyError.indexError ∧
      compute_risk_score ([] : List FinRow) c1exp c1cov c1ews =
        Except.error PyError.indexError ∧
      compute_risk_score c1fin ([] : List ExpRow) c1cov c1ews =
        Except.error PyError.indexError ∧
      generate_rag_highlights c1fin ([] : List CovRow) c1exp c1ews =
        Except.error PyError.indexError ∧
      generate_rag_highlights c1fin c1cov ([] : List ExpRow) c1ews =
        Except.error PyError.indexError ∧
      compute_risk_score c1fin c1exp [⟨"C100", 1.2, 2.0, 1.1, 0⟩] c1ews =
        Except.error PyError.zeroDivisionError := by
  refine ⟨?_, ?_, ?_, ?_, ?_, ?_⟩ <;>
    simp only [compute_risk_score, generate_rag_highlights, c1fin, c1exp, c1cov, c1ews,
      ilocLast, ilocFirst, pydiv, List.getLast?, List.head?,
      bind, Except.bind, pure, Except.pure] <;>
    norm_num

/-- C6: a valid input with ebitda ratio above one (ebitda 500 against
requirement 100, nothing utilized, all covenants met, no events) yields the
negative, unclamped score -1.6, and the rating resolves to "Low". -/
theorem claim6_unclamped :
    compute_risk_score c6fin c6exp c6cov ([] : List EwsRow) = Except.ok (-1.6, "Low") ∧
      (500 : ℚ) / 100 > 1 ∧ (-1.6 : ℚ) < 0 :=
  ⟨eval_compute_c6, by norm_num, by norm_num⟩

/-- The §8 scenario financials frame is nonempty. -/
theorem c1fin_ne : c1fin ≠ [] := by simp [c1fin]

/-- The §8 scenario exposure frame is nonempty. -/
theorem c1exp_ne : c1exp ≠ [] := by simp [c1exp]

/-- The §8 scenario covenants frame is nonempty. -/
theorem c1cov_ne : c1cov ≠ [] := by simp [c1cov]

/-- The all-rules scenario financials frame is nonempty. -/
theorem c5fin_ne : c5fin ≠ [] := by simp [c5fin]

/-- The all-rules scenario exposure frame is nonempty. -/
theorem c5exp_ne : c5exp ≠ [] := by simp [c5exp]

/-- The all-rules scenario covenants frame is nonempty. -/
theorem c5cov_ne : c5cov ≠ [] := by simp [c5cov]

/-- Evaluation of the highlight extractor on the all-rules scenario: the two
threshold strings followed by the two High-severity events in input order,
skipping the Medium one, all without trailing periods. -/
theorem eval_highlights_c5 :
    generate_rag_highlights c5fin c5cov c5exp c5ews = Except.ok
      ["EBITDA is below covenant minimum requirement.",
       "Loan utilization exceeds 80% of sanctioned limit.",
       "High severity alert: Payment delay on 2024-02-01",
       "High severity alert: Covenant breach on 2024-03-05"] := by
  simp only [generate_rag_highlights, c5fin, c5cov, c5exp, c5ews, ilocLast, ilocFirst, pydiv,
    List.getLast?, List.head?, List.filter_cons, List.filter_nil, List.map,
    bind, Except.bind, pure, Except.pure]
  norm_num
  exact ⟨rfl, rfl⟩

/-- C2: on every input satisfying the preconditions (nonempty financials,
covenants and exposure, nonzero first covenant minimum requirement, nonzero
first exposure sanctioned limit) the scorer returns exactly the spec formula
`0.4*(1-ebitda_ratio) + 0.3*utilization_ratio + 0.2*(1-covenant_compliance)
+ 0.1*ews_severity`, with the severity weights Low 0.3 / Medium 0.6 /
High 1.0, weight 0 for any other severity value, and severity 0 when there
are no events. -/
theorem claim2_formula (fin : List FinRow) (exp : List ExpRow) (cov : List CovRow)
    (ews : List EwsRow) (hf : fin ≠ []) (hc : cov ≠ []) (he : exp ≠ [])
    (hmin : (cov.head hc).ebitda_min_requirement ≠ 0)
    (hsl : (exp.head he).sanctioned_limit ≠ 0) :
    compute_risk_score fin exp cov ews = Except.ok
      (0.4 * (1 - (fin.getLast hf).ebitda / (cov.head hc).ebitda_min_requirement) +
        0.3 * ((exp.head he).utilized_amount / (exp.head he).sanctioned_limit) +
        0.2 * (1 - spec_covenant_compliance (cov.head hc)) +
        0.1 * spec_ews_severity (ews.map (fun e => e.severity)),
       rating_of
        (0.4 * (1 - (fin.getLast hf).ebitda / (cov.head hc).ebitda_min_requirement) +
          0.3 * ((exp.head he).utilized_amount / (exp.head he).sanctioned_limit) +
          0.2 * (1 - spec_covenant_compliance (cov.head hc)) +
          0.1 * spec_ews_severity (ews.map (fun e => e.severity)))) := by
  have hsev : pymaxDefault0 (ews.map (fun ev => severityWeightGet ev.severity)) =
      spec_ews_severity (ews.map (fun e => e.severity)) := by
    unfold spec_ews_severity
    rw [List.map_map]
    rfl
  unfold compute_risk_score
  rw [ilocLast_of_ne fin hf]
  simp only [bind, Except.bind]
  rw [ilocFirst_of_ne cov hc]
  simp only [Except.bind]
  rw [pydiv_of_ne _ _ hmin]
  simp only [Except.bind]
  rw [ilocFirst_of_ne exp he]
  simp only [Except.bind]
  rw [pydiv_of_ne _ _ hsl]
  simp only [Except.bind, pure, Except.pure]
  rw [hsev]
  simp only [spec_covenant_compliance]

/-- C2 witness: the general formula theorem instantiated on the §8 scenario
frames, with the preconditions discharged on the concrete rows. -/
theorem claim2_formula_witness :
    compute_risk_score c1fin c1exp c1cov c1ews = Except.ok
      (0.4 * (1 - (c1fin.getLast c1fin_ne).ebitda /
          (c1cov.head c1cov_ne).ebitda_min_requirement) +
        0.3 * ((c1exp.head c1exp_ne).utilized_amount / (c1exp.head c1exp_ne).sanctioned_limit) +
        0.2 * (1 - spec_covenant_compliance (c1cov.head c1cov_ne)) +
        0.1 * spec_ews_severity (c1ews.map (fun e => e.severity)),
       rating_of
        (0.4 * (1 - (c1fin.getLast c1fin_ne).ebitda /
            (c1cov.head c1cov_ne).ebitda_min_requirement) +
          0.3 * ((c1exp.head c1exp_ne).utilized_amount /
            (c1exp.head c1exp_ne).sanctioned_limit) +
          0.2 * (1 - spec_covenant_compliance (c1cov.head c1cov_ne)) +
          0.1 * spec_ews_severity (c1ews.map (fun e => e.severity)))) :=
  claim2_formula c1fin c1exp c1cov c1ews c1fin_ne c1cov_ne c1exp_ne
    (by simp only [c1cov, List.head_cons]; norm_num)
    (by simp only [c1exp, List.head_cons]; norm_num)

/-- C3: whenever the scorer returns a pair `(s, r)`, the rating `r` is "Low"
exactly when `s < 0.3`, "Medium" exactly when `0.3 ≤ s < 0.6`, and "High"
exactly when `0.6 ≤ s` — so 0.3 on the nose is "Medium" and 0.6 on the nose
is "High". -/
theorem claim3_rating_thresholds (fin : List FinRow) (exp : List ExpRow) (cov : List CovRow)
    (ews : List EwsRow) (s : ℚ) (r : String)
    (h : compute_risk_score fin exp cov ews = Except.ok (s, r)) :
    (r = "Low" ↔ s < 0.3) ∧ (r = "Medium" ↔ 0.3 ≤ s ∧ s < 0.6) ∧ (r = "High" ↔ 0.6 ≤ s) := by
  rcases compute_risk_score_shape fin exp cov ews with ⟨e, hE⟩ | ⟨s0, hS⟩
  · rw [hE] at h
    exact absurd h (by simp)
  · rw [hS] at h
    have h2 := Except.ok.inj h
    have hs0 : s0 = s := congrArg Prod.fst h2
    have hr : rating_of s0 = r := congrArg Prod.snd h2
    subst hs0
    rw [← hr]
    exact rating_of_spec s0

/-- C3 witness: the threshold equivalences at the §8 scenario, whose score
0.45 lies in the "Medium" band. -/
theorem claim3_rating_thresholds_witness :
    ("Medium" = "Medium" ↔ (0.3 : ℚ) ≤ 0.45 ∧ (0.45 : ℚ) < 0.6) ∧
      compute_risk_score c1fin c1exp c1cov c1ews = Except.ok (0.45, "Medium") :=
  ⟨(claim3_rating_thresholds c1fin c1exp c1cov c1ews 0.45 "Medium" eval_compute_c1).2.1,
    eval_compute_c1⟩

/-- C5, counterexample to the claim as stated: on a scenario firing all
three rules (two High events around a Medium one), the output is not the
claimed list whose event strings end in a period — the code appends no
trailing period. -/
theorem claim5_period_counterexample :
    generate_rag_highlights c5fin c5cov c5exp c5ews ≠ Except.ok
      ["EBITDA is below covenant minimum requirement.",
       "Loan utilization exceeds 80% of sanctioned limit.",
       "High severity alert: Payment delay on 2024-02-01.",
       "High severity alert: Covenant breach on 2024-03-05."] := by
  rw [eval_highlights_c5]
  intro h
  exact absurd (Except.ok.inj h) (by decide)

/-- C5 (amended: no trailing period on the event strings): whenever the
first two rules fire, the highlight list is exactly the EBITDA string, then
the utilization string, then one string
`"High severity alert: " ++ event ++ " on " ++ event_date` per High-severity
event in the input's given row order. -/
theorem claim5_order_amended (fin : List FinRow) (cov : List CovRow) (exp : List ExpRow)
    (ews : List EwsRow) (hf : fin ≠ []) (hc : cov ≠ []) (he : exp ≠ [])
    (hsl : (exp.head he).sanctioned_limit ≠ 0)
    (h1 : (fin.getLast hf).ebitda < (cov.head hc).ebitda_min_requirement)
    (h2 : (exp.head he).utilized_amount / (exp.head he).sanctioned_limit > 0.8) :
    generate_rag_highlights fin cov exp ews = Except.ok
      (["EBITDA is below covenant minimum requirement.",
        "Loan utilization exceeds 80% of sanctioned limit."] ++
        (ews.filter (fun r => r.severity == "High")).map
          (fun row => "High severity alert: " ++ row.event ++ " on " ++ row.event_date)) := by
  unfold generate_rag_highlights
  rw [ilocLast_of_ne fin hf]
  simp only [bind, Except.bind]
  rw [ilocFirst_of_ne cov hc]
  simp only [Except.bind]
  rw [ilocFirst_of_ne exp he]
  simp only [Except.bind]
  rw [pydiv_of_ne _ _ hsl]
  simp only [Except.bind, pure, Except.pure]
  rw [if_pos h1, if_pos h2]
  rfl

/-- C5 witness: the amended ordering theorem instantiated on the all-rules
scenario, with the rule conditions discharged on the concrete rows. -/
theorem claim5_order_amended_witness :
    generate_rag_highlights c5fin c5cov c5exp c5ews = Except.ok
      (["EBITDA is below covenant minimum requirement.",
        "Loan utilization exceeds 80% of sanctioned limit."] ++
        (c5ews.filter (fun r => r.severity == "High")).map
          (fun row => "High severity alert: " ++ row.event ++ " on " ++ row.event_date)) :=
  claim5_order_amended c5fin c5cov c5exp c5ews c5fin_ne c5cov_ne c5exp_ne
    (by simp only [c5exp, List.head_cons]; norm_num)
    (by simp only [c5fin, c5cov, List.getLast_singleton, List.head_cons]; norm_num)
    (by simp only [c5exp, List.head_cons]; norm_num)

/-- C7: the report assembler raises the HTTP 400 "Insufficient data to
generate report" error exactly when one of the financials, exposure or
covenants subsets is empty; with those nonempty it succeeds even on an empty
early-warning subset, which renders as an empty Early Warning Signals
section. -/
theorem claim7_report_preconditions (name : String) (fin : List FinRow) (exp : List ExpRow)
    (cov : List CovRow) (ews : List EwsRow) (rs : ℚ) (rr : String) (hl : List String)
    (pub web today : String) (pdfOk : Bool) :
    ((create_word_report name fin exp cov ews rs rr hl pub web today pdfOk =
        Except.error (PyError.httpException 400 "Insufficient data to generate report")) ↔
      (fin = [] ∨ exp = [] ∨ cov = [])) ∧
      (fin ≠ [] → exp ≠ [] → cov ≠ [] →
        ∃ doc paths, create_word_report name fin exp cov ([] : List EwsRow) rs rr hl pub web
          today pdfOk = Except.ok (doc, paths)) ∧
      ews_section ([] : List EwsRow) = [] := by
  refine ⟨⟨fun hE => ?_, fun hEmp => ?_⟩, fun hf he hc => ?_, rfl⟩
  · by_contra hne
    push_neg at hne
    obtain ⟨hf, he, hc⟩ := hne
    rw [create_word_report_of_ne name fin exp cov ews rs rr hl pub web today pdfOk hf he hc]
      at hE
    exact absurd hE (by simp)
  · have hg : (fin.isEmpty || exp.isEmpty || cov.isEmpty) = true := by
      rcases hEmp with h | h | h <;> simp [h]
    unfold create_word_report
    rw [hg]
    rfl
  · exact ⟨_, _, create_word_report_of_ne name fin exp cov [] rs rr hl pub web today pdfOk
      hf he hc⟩

/-- C7 witness: the precondition theorem instantiated twice — an empty
financials subset yields the 400 error, and the full §8 frames with an empty
early-warning subset succeed. -/
theorem claim7_report_preconditions_witness :
    create_word_report "X" ([] : List FinRow) c1exp c1cov c1ews 0.45 "Medium" []
        "" "" "2024-01-01" false =
      Except.error (PyError.httpException 400 "Insufficient data to generate report") ∧
      ∃ doc paths, create_word_report "X" c1fin c1exp c1cov ([] : List EwsRow) 0.45 "Medium" []
        "" "" "2024-01-01" false = Except.ok (doc, paths) :=
  ⟨(claim7_report_preconditions "X" [] c1exp c1cov c1ews 0.45 "Medium" []
      "" "" "2024-01-01" false).1.mpr (Or.inl rfl),
   (claim7_report_preconditions "X" c1fin c1exp c1cov c1ews 0.45 "Medium" []
      "" "" "2024-01-01" false).2.1 c1fin_ne c1exp_ne c1cov_ne⟩

/-- C9: when the PDF conversion fails, report assembly still succeeds with
the same document: the PDF path and PDF URL are reported absent while the
Word path, the Word URL and the highlight list are identical to the
conversion-success run (and the Word path is the deterministic
`report_word_rel`). -/
theorem claim9_pdf_best_effort (name : String) (fin : List FinRow) (exp : List ExpRow)
    (cov : List CovRow) (ews : List EwsRow) (rs : ℚ) (rr : String) (hl : List String)
    (pub web today : String) (hf : fin ≠ []) (he : exp ≠ []) (hc : cov ≠ []) :
    ∃ doc pathsT pathsF,
      create_word_report name fin exp cov ews rs rr hl pub web today true =
        Except.ok (doc, pathsT) ∧
      create_word_report name fin exp cov ews rs rr hl pub web today false =
        Except.ok (doc, pathsF) ∧
      pathsF.pdf = none ∧ pathsF.pdf_url = none ∧
      pathsF.word = pathsT.word ∧ pathsF.word_url = pathsT.word_url ∧
      pathsF.word = report_word_rel name today ∧
      pathsF.rag_highlights = hl ∧ pathsT.rag_highlights = hl := by
  refine ⟨_, _, _,
    create_word_report_of_ne name fin exp cov ews rs rr hl pub web today true hf he hc,
    create_word_report_of_ne name fin exp cov ews rs rr hl pub web today false hf he hc,
    ?_, ?_, ?_, ?_, ?_, ?_, ?_⟩ <;> simp

/-- C9 witness: the best-effort theorem instantiated on the §8 frames with a
configured base URL. -/
theorem claim9_pdf_best_effort_witness :
    ∃ doc pathsT pathsF,
      create_word_report "Acme Corp" c1fin c1exp c1cov c1ews 0.45 "Medium" ["h"]
        "https://base.example" "host.example" "2024-01-01" true = Except.ok (doc, pathsT) ∧
      create_word_report "Acme Corp" c1fin c1exp c1cov c1ews 0.45 "Medium" ["h"]
        "https://base.example" "host.example" "2024-01-01" false = Except.ok (doc, pathsF) ∧
      pathsF.pdf = none ∧ pathsF.pdf_url = none ∧
      pathsF.word = pathsT.word ∧ pathsF.word_url = pathsT.word_url ∧
      pathsF.word = report_word_rel "Acme Corp" "2024-01-01" ∧
      pathsF.rag_highlights = ["h"] ∧ pathsT.rag_highlights = ["h"] :=
  claim9_pdf_best_effort "Acme Corp" c1fin c1exp c1cov c1ews 0.45 "Medium" ["h"]
    "https://base.example" "host.example" "2024-01-01" c1fin_ne c1exp_ne c1cov_ne

/-- C8, counterexample to the claim as stated: with a configured sink and a
valid agent, a 2xx response yields status "alert_escalated" (not
"escalated"), and a transport-level failure is not returned as a "failed"
result — it escapes as HTTPException 502. -/
theorem claim8_counterexample :
    escalate_alert_internal "C100" "agent-007" none none none
        "https://hook.example" "2026-10-12T00:00:00" (HttpOutcome.resp 200 "ok") =
      Except.ok ⟨"alert_escalated", "200", ""⟩ ∧
      "alert_escalated" ≠ "escalated" ∧
      escalate_alert_internal "C100" "agent-007" none none none
          "https://hook.example" "2026-10-12T00:00:00" (HttpOutcome.transportError "timeout") =
        Except.error (PyError.httpException 502 "Webhook post failed: timeout") := by
  refine ⟨?_, by decide, ?_⟩ <;> decide

/-- C8 (amended to the code's behavior): with the sink configured and the
agent id valid, a 2xx response returns status "alert_escalated" with empty
message, any other response returns status "failed" with the code and the
body truncated to 300 characters, and a transport-level failure raises
HTTPException 502 past the notifier's boundary; there is no retry — exactly
one outcome is consumed. -/
theorem claim8_notifier_amended (company_id x_agent_id : String) (risk_score : Option ℚ)
    (risk_rating : Option String) (extra : Option (List (String × String)))
    (webhook_url now_utc : String)
    (hAgentNe : x_agent_id ≠ "") (hAgent : pyStartsWith x_agent_id "agent-" = true)
    (hHook : webhook_url ≠ "") :
    (∀ code text, escalate_alert_internal company_id x_agent_id risk_score risk_rating extra
        webhook_url now_utc (HttpOutcome.resp code text) =
      (if 200 ≤ code ∧ code < 300 then
        Except.ok ⟨"alert_escalated", toString code, ""⟩
      else Except.ok ⟨"failed", toString code, text.take 300⟩)) ∧
      (∀ e, escalate_alert_internal company_id x_agent_id risk_score risk_rating extra
          webhook_url now_utc (HttpOutcome.transportError e) =
        Except.error (PyError.httpException 502 ("Webhook post failed: " ++ e))) := by
  have hcond : ¬(x_agent_id = "" ∨ pyStartsWith x_agent_id "agent-" = false) := by
    rintro (h | h)
    · exact hAgentNe h
    · rw [hAgent] at h
      cases h
  constructor
  · intro code text
    unfold escalate_alert_internal
    rw [if_neg hcond, if_neg hHook]
  · intro e
    unfold escalate_alert_internal
    rw [if_neg hcond, if_neg hHook]

/-- C8 witness: the amended notifier theorem instantiated on a 503 response
and on a transport timeout, with the agent and sink preconditions discharged
on concrete values. -/
theorem claim8_notifier_amended_witness :
    (escalate_alert_internal "C100" "agent-007" none none none
        "https://hook.example" "t" (HttpOutcome.resp 503 "service down") =
      (if 200 ≤ 503 ∧ 503 < 300 then
        Except.ok ⟨"alert_escalated", toString 503, ""⟩
      else Except.ok ⟨"failed", toString 503, ("service down" : String).take 300⟩)) ∧
      escalate_alert_internal "C100" "agent-007" none none none
          "https://hook.example" "t" (HttpOutcome.transportError "timeout") =
        Except.error (PyError.httpException 502 ("Webhook post failed: " ++ "timeout")) :=
  ⟨(claim8_notifier_amended "C100" "agent-007" none none none "https://hook.example" "t"
      (by decide) (by decide) (by decide)).1 503 "service down",
   (claim8_notifier_amended "C100" "agent-007" none none none "https://hook.example" "t"
      (by decide) (by decide) (by decide)).2 "timeout"⟩

/-- C10: the dict `generate_report_internal` returns carries its artifact
locations under the keys `word_report` / `pdf_report`, so the dispatcher's
reads of `word_path` / `pdf_path` always produce `None`: every successful
`tools/call` of generateReport reports `word_path = None` and
`pdf_path = None` regardless of the report generated. -/
theorem claim10_paths_lost :
    (∀ cn rs rr rep, pyget (gri_dict cn rs rr rep) "word_path" = none ∧
        pyget (gri_dict cn rs rr rep) "pdf_path" = none ∧
        pyget (gri_dict cn rs rr rep) "word_report" = some (PyVal.vstr rep.word)) ∧
      (∀ args_cid args_fmt agent companies fins exps covs ewss pub web today now pdfOk,
        dispatchWordPath (mcp_tools_dispatch_generateReport args_cid args_fmt agent companies
          fins exps covs ewss pub web today now pdfOk) = none ∧
        dispatchPdfPath (mcp_tools_dispatch_generateReport args_cid args_fmt agent companies
          fins exps covs ewss pub web today now pdfOk) = none) := by
  constructor
  · intro cn rs rr rep
    exact ⟨pyget_gri_dict_word_path cn rs rr rep, pyget_gri_dict_pdf_path cn rs rr rep,
      pyget_gri_dict_word_report cn rs rr rep⟩
  · intro args_cid args_fmt agent companies fins exps covs ewss pub web today now pdfOk
    unfold mcp_tools_dispatch_generateReport
    cases hreq : pyrequire args_cid "company_id" with
    | error e =>
      simp only [bind, Except.bind, dispatchWordPath, dispatchPdfPath]
      exact ⟨trivial, trivial⟩
    | ok cid =>
      simp only [bind, Except.bind]
      rcases generate_report_internal_shape cid agent companies fins exps covs ewss pub web
          today pdfOk with ⟨e, hE⟩ | ⟨cn, rs, rr, rep, hO⟩
      · rw [hE]
        simp only [dispatchWordPath, dispatchPdfPath]
        exact ⟨trivial, trivial⟩
      · rw [hO]
        simp only [bind, Except.bind, pure, Except.pure, dispatchWordPath, dispatchPdfPath]
        exact ⟨pyget_gri_dict_word_path _ _ _ _, pyget_gri_dict_pdf_path _ _ _ _⟩
